import Mathlib

/-!
Verification of the XSS scanning engine of `src/utils.py` (class `XSSScanner`).

The engine is embedded shallowly: Python strings become `List Char`, the regex
patterns of the catalog become a small regular-expression AST (`RElem`) with a
backtracking matcher that mirrors CPython `re` semantics (leftmost match,
greedy/lazy character-class repetition, `finditer`'s empty-match advance rule,
`IGNORECASE` via lower-casing, `DOTALL` irrelevant inside a single line), and
the scanner's methods (`_compile_patterns`, `_is_commented_line`,
`_scan_line_for_vulnerabilities`, `scan_code`) become Lean functions over that
engine.

CPython's `re` module rejects a lookbehind group whose body does not have a
fixed width (`re.error: look-behind requires fixed-width pattern`); the
catalog's `(?<!//.*)` prefix is exactly such a group, so thirteen of the
seventeen patterns raise `re.error` in `_compile_patterns` and are replaced by
the fallback `re.compile(r".*")`.  `varLookbehind` models that compile-time
check for the pattern strings of this catalog.
-/

namespace XSS

/-- Python `\s` (ASCII range, which is all the catalog's inputs use). -/
def isPySpace (c : Char) : Bool :=
  c == ' ' || c == '\t' || c == '\n' || c == '\r' || c == '\x0b' || c == '\x0c'

/-- Python `\w` on ASCII text: letters, digits and underscore. -/
def isWordChar (c : Char) : Bool :=
  c.isAlphanum || c == '_'

/-- Python `.` under `re.DOTALL`: any character. -/
def anyChar : Char → Bool := fun _ => true

/-- The character class `['\"]` of the catalog's patterns. -/
def isQuoteChar (c : Char) : Bool :=
  c == '\'' || c == '"'

/-- One element of a compiled pattern: a literal run, a single character from a
class, or a (greedy or lazy) character-class repetition.  Every pattern the
catalog actually compiles falls into this shape. -/
inductive RElem where
  | lit (cs : List Char)
  | one (p : Char → Bool)
  | star (p : Char → Bool) (greedy : Bool)

/-- Case-insensitive literal match at the front of the input (`re.IGNORECASE`);
returns the rest of the input on success. -/
def litMatch : List Char → List Char → Option (List Char)
  | [], s => some s
  | _ :: _, [] => none
  | c :: cs, d :: s => if c.toLower == d.toLower then litMatch cs s else none

/-- Length of the longest prefix of `s` whose characters satisfy `p`. -/
def runLen (p : Char → Bool) : List Char → Nat
  | [] => 0
  | c :: s => if p c then runLen p s + 1 else 0

/-- Backtracking matcher: the rest of the input after the first match of `es`
at the very start of `s`, in CPython's backtracking order (a greedy star tries
the longest repetition first, a lazy star the shortest). -/
def matchElems : (es : List RElem) → List Char → Option (List Char)
  | [], s => some s
  | RElem.lit cs :: rest, s =>
      match litMatch cs s with
      | some s2 => matchElems rest s2
      | none => none
  | RElem.one p :: rest, s =>
      match s with
      | [] => none
      | c :: s2 => if p c then matchElems rest s2 else none
  | RElem.star p greedy :: rest, s =>
      let m := runLen p s
      let ks := if greedy then (List.range (m + 1)).reverse else List.range (m + 1)
      ks.findSome? (fun k => matchElems rest (s.drop k))

/-- Worker of `searchFrom`; the fuel only bounds the walk over start
positions (one per step), so `s.length + 1 - i` steps reach the end of the
input from position `i`. -/
def searchFromAux (es : List RElem) (s : List Char) : Nat → Nat → Option (Nat × Nat)
  | 0, _ => none
  | fuel + 1, i =>
      if i ≤ s.length then
        match matchElems es (s.drop i) with
        | some rem => some (i, s.length - rem.length)
        | none => searchFromAux es s fuel (i + 1)
      else none

/-- Leftmost match of `es` in `s` starting at position `i` or later:
`some (start, stop)` in half-open index form, as `re.search` finds it. -/
def searchFrom (es : List RElem) (s : List Char) (i : Nat) : Option (Nat × Nat) :=
  searchFromAux es s (s.length + 1 - i) i

/-- Driver of `finditer`: after yielding a match the next search starts at its
end, one character further when the match was empty (CPython's scanner rule).
The fuel bounds the loop; the start positions of successive matches strictly
increase and stay within the input, so `s.length + 2` steps always suffice. -/
def finditerAux (es : List RElem) (s : List Char) : Nat → Nat → List (Nat × Nat)
  | 0, _ => []
  | fuel + 1, cur =>
      match searchFrom es s cur with
      | none => []
      | some (b, e) => (b, e) :: finditerAux es s fuel (if b < e then e else e + 1)

/-- Python `compiled.finditer(s)`: the non-overlapping matches of `es` in `s`,
leftmost first. -/
def finditer (es : List RElem) (s : List Char) : List (Nat × Nat) :=
  finditerAux es s (s.length + 2) 0

/-- Python `re.search(pattern, s)` as a Boolean. -/
def searchHit (es : List RElem) (s : List Char) : Bool :=
  (searchFrom es s 0).isSome

/-- Python `re.search` for a `^`-anchored pattern: a match must start at
position 0 (no `re.MULTILINE`). -/
def anchoredHit (es : List RElem) (s : List Char) : Bool :=
  (matchElems es s).isSome

/-- Whether a character is one of the regex repetition operators; a lookbehind
body containing one does not have a fixed width. -/
def hasQuant (cs : List Char) : Bool :=
  cs.any (fun c => c == '*' || c == '+' || c == '?' || c == '\x7b')

/-- Whether the pattern contains a lookbehind group `(?<!...)` or `(?<=...)`
whose body has a repetition operator.  CPython `re` requires a fixed-width
lookbehind and raises `re.error` for such a pattern; this is the only
construct of the catalog's pattern strings that `re.compile` rejects. -/
def varLookbehind : List Char → Bool
  | '(' :: '?' :: '<' :: k :: rest =>
      ((k == '!' || k == '=') && hasQuant (rest.takeWhile (fun d => d != ')')))
        || varLookbehind ('?' :: '<' :: k :: rest)
  | _ :: rest => varLookbehind rest
  | [] => false

/-- Whether `re.compile(p, re.IGNORECASE | re.DOTALL)` succeeds on this
catalog's pattern strings. -/
def re_compiles (p : String) : Bool :=
  !varLookbehind p.data

/-- XSSScanner._get_vulnerability_patterns: the ordered rule catalog, name to
regex pattern string, exactly as the source dict lists them. -/
def vulnerability_patterns : List (String × String) :=
  [ ("innerHTML_assignment", "(?<!//.*)\\.innerHTML\\s*=\\s*[^;]+"),
    ("document_write_call", "(?<!//.*)document\\.write\\s*\\([^)]*\\)"),
    ("eval_function_call", "(?<!//.*)eval\\s*\\([^)]*\\)"),
    ("location_hash_usage", "(?<!//.*)location\\.hash"),
    ("script_tag_injection", "<script[^>]*>.*?</script>"),
    ("on_event_handler", "on\\w+\\s*=\\s*['\\\"][^'\\\"]*['\\\"]"),
    ("javascript_protocol", "javascript:\\s*[^\\\"\\'\\s]+"),
    ("unescaped_user_input",
      "(?<!//.*)\\.innerHTML\\s*=\\s*.*(\\+.*userInput|\\+.*req\\.body|\\+.*req\\.query)"),
    ("dangerous_src_assignment", "(?<!//.*)\\.src\\s*=\\s*['\\\"][^'\\\"]*['\\\"]"),
    ("dangerous_href_assignment", "(?<!//.*)\\.href\\s*=\\s*['\\\"][^'\\\"]*['\\\"]"),
    ("template_literal_injection", "`.*\\$\\\x7b[^\x7d]+\\\x7d.*`"),
    ("insertAdjacentHTML_call", "(?<!//.*)insertAdjacentHTML\\s*\\([^)]*\\)"),
    ("outerHTML_assignment", "(?<!//.*)\\.outerHTML\\s*=\\s*[^;]+"),
    ("dangerous_setAttribute",
      "(?<!//.*)setAttribute\\s*\\(\\s*['\\\"](?:src|href|onclick|onload)['\\\"]\\s*,"),
    ("dangerous_createElement", "(?<!//.*)createElement\\s*\\(\\s*['\\\"]script['\\\"]\\s*\\)"),
    ("dangerous_write", "(?<!//.*)\\.write\\s*\\([^)]*\\)"),
    ("dangerous_writeln", "(?<!//.*)\\.writeln\\s*\\([^)]*\\)") ]

/-- Compiled form of `re.compile(r".*", re.IGNORECASE | re.DOTALL)`, the
fallback `_compile_patterns` substitutes when a pattern raises `re.error`. -/
def anyStar : List RElem := [RElem.star anyChar true]

/-- Compiled `<script[^>]*>.*?</script>`. -/
def astScriptTag : List RElem :=
  [RElem.lit "<script".data, RElem.star (fun c => c != '>') true, RElem.lit ">".data,
   RElem.star anyChar false, RElem.lit "</script>".data]

/-- Compiled `on\w+\s*=\s*['\"][^'\"]*['\"]` (a `+` is one element then a
greedy star of the same class). -/
def astOnEvent : List RElem :=
  [RElem.lit "on".data, RElem.one isWordChar, RElem.star isWordChar true,
   RElem.star isPySpace true, RElem.lit "=".data, RElem.star isPySpace true,
   RElem.one isQuoteChar, RElem.star (fun c => !isQuoteChar c) true, RElem.one isQuoteChar]

/-- Compiled `javascript:\s*[^\"\'\s]+`. -/
def astJavascriptProto : List RElem :=
  [RElem.lit "javascript:".data, RElem.star isPySpace true,
   RElem.one (fun c => !(isQuoteChar c || isPySpace c)),
   RElem.star (fun c => !(isQuoteChar c || isPySpace c)) true]

/-- Compiled `` `.*\$\{[^}]+\}.*` ``. -/
def astTemplateLiteral : List RElem :=
  [RElem.lit "`".data, RElem.star anyChar true, RElem.lit "$\x7b".data,
   RElem.one (fun c => c != '\x7d'), RElem.star (fun c => c != '\x7d') true,
   RElem.lit "\x7d".data, RElem.star anyChar true, RElem.lit "`".data]

/-- Compiled ASTs of the pattern strings that CPython `re` accepts, keyed by
the literal pattern text; the catalog never reaches the default branch. -/
def regexAST (p : String) : List RElem :=
  if p = "<script[^>]*>.*?</script>" then astScriptTag
  else if p = "on\\w+\\s*=\\s*['\\\"][^'\\\"]*['\\\"]" then astOnEvent
  else if p = "javascript:\\s*[^\\\"\\'\\s]+" then astJavascriptProto
  else if p = "`.*\\$\\\x7b[^\x7d]+\\\x7d.*`" then astTemplateLiteral
  else anyStar

/-- One entry of XSSScanner._compile_patterns: `re.compile` the pattern, and on
`re.error` fall back to the compiled `r".*"` (the source logs the error and
substitutes `re.compile(r".*", re.IGNORECASE | re.DOTALL)`). -/
def compileOne (p : String) : List RElem :=
  if re_compiles p then regexAST p else anyStar

/-- XSSScanner._compile_patterns: the compiled catalog, in catalog order. -/
def compiled_patterns : List (String × List RElem) :=
  vulnerability_patterns.map (fun np => (np.1, compileOne np.2))

/-- Comment pattern `^\s*//` of `_is_commented_line`. -/
def commentLineSlash : List RElem := [RElem.star isPySpace true, RElem.lit "//".data]

/-- Comment pattern `^\s*#` of `_is_commented_line`. -/
def commentLineHash : List RElem := [RElem.star isPySpace true, RElem.lit "#".data]

/-- Comment pattern `/\*.*\*/` of `_is_commented_line`. -/
def commentBlockC : List RElem :=
  [RElem.lit "/*".data, RElem.star anyChar true, RElem.lit "*/".data]

/-- Comment pattern `<!--.*-->` of `_is_commented_line`. -/
def commentBlockHtml : List RElem :=
  [RElem.lit "<!--".data, RElem.star anyChar true, RElem.lit "-->".data]

/-- XSSScanner._is_commented_line: whether a match starting at `pos` sits after
a comment opener, judged on the text before the match only (the `^`-anchored
patterns match at the start of that prefix, the block patterns anywhere in
it). -/
def is_commented_line (line : List Char) (pos : Nat) : Bool :=
  let pre := line.take pos
  anchoredHit commentLineSlash pre || anchoredHit commentLineHash pre
    || searchHit commentBlockC pre || searchHit commentBlockHtml pre

/-- Python `str.strip()`: drop leading and trailing whitespace. -/
def pyStrip (cs : List Char) : List Char :=
  ((cs.dropWhile isPySpace).reverse.dropWhile isPySpace).reverse

/-- One entry of the result dicts `_scan_line_for_vulnerabilities` builds. -/
structure Finding where
  line : Nat
  vulnerability_type : String
  snippet : String
  confidence : String
  description : String
deriving DecidableEq, Repr

/-- XSSScanner._get_vulnerability_description: the static description table
with its default. -/
def get_vulnerability_description (t : String) : String :=
  if t = "innerHTML_assignment" then
    "Direct assignment to innerHTML can lead to XSS if user input is not sanitized"
  else if t = "document_write_call" then "document.write() can execute malicious scripts"
  else if t = "eval_function_call" then
    "eval() executes arbitrary code and is dangerous with user input"
  else if t = "location_hash_usage" then "location.hash can be manipulated by attackers"
  else if t = "script_tag_injection" then "Script tags can execute arbitrary JavaScript"
  else if t = "on_event_handler" then "Inline event handlers can be exploited for XSS"
  else if t = "javascript_protocol" then "javascript: URLs can execute malicious code"
  else if t = "unescaped_user_input" then
    "User input assigned to innerHTML without proper escaping"
  else if t = "dangerous_src_assignment" then
    "Dynamic src assignment can lead to script injection"
  else if t = "dangerous_href_assignment" then
    "Dynamic href assignment can lead to script injection"
  else if t = "template_literal_injection" then
    "Template literals with user input can lead to XSS"
  else if t = "insertAdjacentHTML_call" then "insertAdjacentHTML can execute malicious HTML"
  else if t = "outerHTML_assignment" then "Direct assignment to outerHTML can lead to XSS"
  else if t = "dangerous_setAttribute" then "Dynamic attribute setting can lead to XSS"
  else if t = "dangerous_createElement" then
    "Creating script elements dynamically can be dangerous"
  else if t = "dangerous_write" then "Document.write() can execute malicious scripts"
  else if t = "dangerous_writeln" then "Document.writeln() can execute malicious scripts"
  else "Potential XSS vulnerability detected"

/-- Inner loop of `_scan_line_for_vulnerabilities` for one catalog entry:
every match of the rule in `finditer` order, dropped when
`_is_commented_line` holds at the match start, otherwise turned into the
result dict the source appends. -/
def ruleFindings (line : List Char) (line_number : Nat) (np : String × List RElem) :
    List Finding :=
  (finditer np.2 line).filterMap (fun be =>
    if is_commented_line line be.1 then none
    else
      some { line := line_number
             vulnerability_type := np.1
             snippet := String.mk (pyStrip ((line.drop be.1).take (be.2 - be.1)))
             confidence := "medium"
             description := get_vulnerability_description np.1 })

/-- XSSScanner._scan_line_for_vulnerabilities: every rule of the compiled
catalog in order, every match of the rule in `finditer` order, dropped when
`_is_commented_line` holds at the match start.  Nothing in the embedded
matcher throws, so the per-rule `except` branch of the source is dead. -/
def scan_line_for_vulnerabilities (line : List Char) (line_number : Nat) : List Finding :=
  compiled_patterns.flatMap (ruleFindings line line_number)

/-- XSSScanner.max_code_length (set in `__init__`). -/
def max_code_length : Nat := 50000

/-- XSSScanner.max_vulnerabilities (set in `__init__`). -/
def max_vulnerabilities : Nat := 50

/-- Python `str.splitlines()` over the line-boundary characters it splits on,
`\r\n` counted as a single boundary and no empty trailing line. -/
def isLineBreak (c : Char) : Bool :=
  c == '\n' || c == '\r' || c == '\x0b' || c == '\x0c' || c == '\x1c'
    || c == '\x1d' || c == '\x1e' || c == '\x85' || c == '\u2028' || c == '\u2029'

/-- Worker of `splitlines`, accumulating the current line reversed. -/
def splitlinesAux : List Char → List Char → List (List Char)
  | [], acc => if acc.isEmpty then [] else [acc.reverse]
  | '\r' :: '\n' :: rest, acc => acc.reverse :: splitlinesAux rest []
  | c :: rest, acc =>
      if isLineBreak c then acc.reverse :: splitlinesAux rest []
      else splitlinesAux rest (c :: acc)

/-- Python `code.splitlines()`. -/
def splitlines (code : List Char) : List (List Char) :=
  splitlinesAux code []

/-- Truncation step of `scan_code`: code longer than `max_code_length` is cut
to its first `max_code_length` characters. -/
def truncateCode (code : List Char) : List Char :=
  if max_code_length < code.length then code.take max_code_length else code

/-- Scan loop of `scan_code`: lines in order, 1-based numbering, with the
early exit once the accumulator holds `max_vulnerabilities` findings. -/
def scanLoop : List (List Char) → Nat → List Finding → List Finding
  | [], _, acc => acc
  | l :: ls, n, acc =>
      if max_vulnerabilities ≤ acc.length then acc
      else scanLoop ls (n + 1) (acc ++ scan_line_for_vulnerabilities l n)

/-- The result dict `scan_code` returns. -/
structure ScanResult where
  status : String
  vulnerabilities_found : Nat
  vulnerabilities : List Finding
  message : String
deriving DecidableEq, Repr

/-- XSSScanner.scan_code: truncate oversized input, split into lines, scan
each line with the early exit, and build the success dict. -/
def scan_code (code : List Char) : ScanResult :=
  let bounded := truncateCode code
  let all := scanLoop (splitlines bounded) 1 []
  { status := "success"
    vulnerabilities_found := all.length
    vulnerabilities := all
    message := "Scan completed. Found " ++ toString all.length ++ " potential vulnerabilities." }

/-- The response model of `src/models.py` (`ScanResponse`) restricted to the
fields the engine's result dict can populate plus the optional
`code_length`; `scan_duration`, a float the engine never sets either, is not
modelled. -/
structure ScanResponse where
  status : String
  vulnerabilities_found : Nat
  vulnerabilities : List Finding
  message : String
  code_length : Option Nat
deriving DecidableEq, Repr

/-- A `ScanResponse` built from the engine's result dict: the dict returned by
`scan_code` carries no `code_length` key, so the optional field keeps its
default `None`. -/
def scanResponseOf (r : ScanResult) : ScanResponse :=
  { status := r.status
    vulnerabilities_found := r.vulnerabilities_found
    vulnerabilities := r.vulnerabilities
    message := r.message
    code_length := none }

/-- Position of a finding's rule in the catalog (rule names are unique). -/
def ruleRank (f : Finding) : Nat :=
  (compiled_patterns.map Prod.fst).indexOf f.vulnerability_type

/-- The discovery order the spec describes: ascending line number, and within
a line ascending catalog rule position. -/
def findingOrder (a b : Finding) : Prop :=
  a.line < b.line ∨ (a.line = b.line ∧ ruleRank a ≤ ruleRank b)

/-- A concrete finding used to instantiate universally quantified theorems. -/
def someFinding : Finding :=
  { line := 1, vulnerability_type := "t", snippet := "", confidence := "medium",
    description := "" }

/-! Lemmas about the fallback pattern `.*`. -/

theorem runLen_anyChar (s : List Char) : runLen anyChar s = s.length := by
  induction s with
  | nil => rfl
  | cons c s ih => simp [runLen, anyChar, ih]

theorem matchElems_anyStar (s : List Char) : matchElems anyStar s = some [] := by
  have h1 : (List.range (s.length + 1)).reverse = s.length :: (List.range s.length).reverse := by
    rw [List.range_succ, List.reverse_append, List.reverse_singleton, List.singleton_append]
  simp [anyStar, matchElems, runLen_anyChar, h1]

theorem searchFrom_anyStar (s : List Char) : searchFrom anyStar s 0 = some (0, s.length) := by
  simp [searchFrom, searchFromAux, matchElems_anyStar]

theorem finditer_anyStar_head (s : List Char) :
    (finditer anyStar s).head? = some (0, s.length) := by
  have h2 : s.length + 2 = (s.length + 1) + 1 := rfl
  rw [finditer, h2, finditerAux, searchFrom_anyStar]
  rfl

/-- C1: the claim says a malformed rule is replaced by one that matches
nothing.  What `_compile_patterns` substitutes is the compiled `r".*"`, which
matches on every line: the first `finditer` match of the substituted rule
spans the whole line, whatever the line is. -/
theorem C1_fallback_matches_every_line (p : String) (line : List Char)
    (h : re_compiles p = false) :
    compileOne p = anyStar ∧ (finditer (compileOne p) line).head? = some (0, line.length) := by
  have hc : compileOne p = anyStar := by simp [compileOne, h]
  exact ⟨hc, by rw [hc]; exact finditer_anyStar_head line⟩

/-- Witness for `C1_fallback_matches_every_line` at the catalog's
`innerHTML_assignment` pattern and the line `x`. -/
theorem C1_fallback_matches_every_line_witness :
    re_compiles "(?<!//.*)\\.innerHTML\\s*=\\s*[^;]+" = false
      ∧ (compileOne "(?<!//.*)\\.innerHTML\\s*=\\s*[^;]+" = anyStar
          ∧ (finditer (compileOne "(?<!//.*)\\.innerHTML\\s*=\\s*[^;]+") ['x']).head?
              = some (0, 1)) :=
  ⟨by decide, C1_fallback_matches_every_line _ ['x'] (by decide)⟩

/-- C1 counterexample: the `innerHTML_assignment` pattern cannot be compiled,
yet on the one-character line `x` the substituted rule produces two matches
and two findings, not zero. -/
theorem C1_counterexample :
    re_compiles "(?<!//.*)\\.innerHTML\\s*=\\s*[^;]+" = false
      ∧ finditer (compileOne "(?<!//.*)\\.innerHTML\\s*=\\s*[^;]+") ['x'] = [(0, 1), (1, 1)]
      ∧ ((scan_line_for_vulnerabilities ['x'] 1).filter
            (fun f => f.vulnerability_type == "innerHTML_assignment")).length = 2 := by
  exact ⟨by decide, by decide, by decide⟩

/-- C2: `scan_code` has no empty-input check at all.  On the empty string and
on a whitespace-only string it returns a success dict (the whitespace line
even yields 26 findings from the fallback rules); the empty/whitespace
rejection lives only in the request model `XSSScanRequest.validate_code` of
`src/models.py`, outside the engine. -/
theorem C2_empty_input_scans_successfully :
    scan_code [] =
        { status := "success", vulnerabilities_found := 0, vulnerabilities := [],
          message := "Scan completed. Found 0 potential vulnerabilities." }
      ∧ (scan_code "   ".data).status = "success"
      ∧ (scan_code "   ".data).vulnerabilities_found = 26 :=
  ⟨by decide, rfl, by decide⟩

/-- C3: the early exit of `scan_code`'s loop — once the accumulator holds
`max_vulnerabilities` findings, no further line is scanned and the
accumulator is returned unchanged.  (The count can still end up above the
cap: the check runs only before a line, see `C3_counterexample`.) -/
theorem C3_cap_halts_scanning (ls : List (List Char)) (n : Nat) (acc : List Finding)
    (h : max_vulnerabilities ≤ acc.length) : scanLoop ls n acc = acc := by
  cases ls with
  | nil => rfl
  | cons l ls => simp [scanLoop, h]

/-- Witness for `C3_cap_halts_scanning` at a 50-finding accumulator. -/
theorem C3_cap_halts_scanning_witness :
    max_vulnerabilities ≤ (List.replicate 50 someFinding).length
      ∧ scanLoop [['x']] 1 (List.replicate 50 someFinding) = List.replicate 50 someFinding :=
  ⟨by simp [max_vulnerabilities], C3_cap_halts_scanning _ _ _ (by simp [max_vulnerabilities])⟩

/-- C3 counterexample: three copies of the line `eval(x)` yield 52 findings,
above `max_vulnerabilities = 50` — the cap check runs only between lines, and
the second line's 26 findings are appended in full on top of 26. -/
theorem C3_counterexample :
    (scan_code "eval(x)\neval(x)\neval(x)".data).vulnerabilities_found = 52
      ∧ max_vulnerabilities < (scan_code "eval(x)\neval(x)\neval(x)".data).vulnerabilities_found :=
  ⟨by decide, by decide⟩

/-- C4: the claim (and the repository's own test data) expects zero findings
on the safe `textContent` line; the scan in fact reports 26 — each of the
thirteen rules whose pattern failed to compile fell back to `.*`, which
matches the whole line at offset 0 and once more (empty) at its end, and
neither match is comment-suppressed. -/
theorem C4_textContent_line_yields_26_findings :
    (scan_code "document.getElementById(\"content\").textContent = userInput;".data).status
        = "success"
      ∧ (scan_code
            "document.getElementById(\"content\").textContent = userInput;".data).vulnerabilities_found
          = 26 :=
  ⟨rfl, by decide⟩

/-- C5: the claim (and the repository's own test data) expects zero findings
on the fully commented line; the scan reports 13 — each fallback `.*` rule
matches the whole line at offset 0, where the empty prefix before the match
contains no comment marker, so `_is_commented_line` does not suppress it. -/
theorem C5_commented_line_yields_13_findings :
    (scan_code "// document.getElementById('x').innerHTML = userInput;".data).vulnerabilities_found
        = 13
      ∧ ((scan_code "document.getElementById('x').innerHTML = userInput;".data).vulnerabilities.filter
            (fun f => f.vulnerability_type == "innerHTML_assignment")).length = 2 :=
  ⟨by decide, by decide⟩

/-- C6: the claim expects exactly one finding on the `innerHTML` line; the
scan reports 26, because the thirteen fallback `.*` rules each contribute two
matches (whole line and trailing empty), none suppressed. -/
theorem C6_innerHTML_line_yields_26_findings :
    (scan_code "document.getElementById(\"content\").innerHTML = userInput;".data).vulnerabilities_found
      = 26 := by
  decide

/-- C7: oversized input does not fail — `scan_code` cuts the text to its
first `max_code_length` characters and returns exactly the result of
scanning that prefix, with status success.  (No scanned length is recorded
anywhere in the result: see `C7_counterexample`.) -/
theorem C7_oversized_input_truncated (code : List Char)
    (h : max_code_length < code.length) :
    scan_code code = scan_code (code.take max_code_length)
      ∧ (scan_code code).status = "success" := by
  refine ⟨?_, rfl⟩
  have h2 : ¬ max_code_length < (code.take max_code_length).length := by
    simp [List.length_take]
  rw [scan_code, scan_code, truncateCode, truncateCode, if_pos h, if_neg h2]

/-- Witness for `C7_oversized_input_truncated` at a 50001-character input. -/
theorem C7_oversized_input_truncated_witness :
    max_code_length < (List.replicate (max_code_length + 1) 'a').length
      ∧ (scan_code (List.replicate (max_code_length + 1) 'a')
            = scan_code ((List.replicate (max_code_length + 1) 'a').take max_code_length)
          ∧ (scan_code (List.replicate (max_code_length + 1) 'a')).status = "success") :=
  ⟨by simp, C7_oversized_input_truncated _ (by simp)⟩

/-- C7 counterexample: the claim says the result of an oversized scan records
a scanned length equal to `max_code_length`.  The engine's result dict has no
such entry, so the response model's optional `code_length` keeps its default
`None`, which is not `max_code_length` — for the concrete 50001-character
input as for any other. -/
theorem C7_counterexample :
    (scanResponseOf (scan_code (List.replicate (max_code_length + 1) 'a'))).code_length
      ≠ some max_code_length := by
  simp [scanResponseOf]

/-- C8: with the catalog and the limits fixed, `scan_code` is a pure function
of the submitted text — two invocations on the same text are one and the same
value, so the finding sequences (lines, rule names, snippets) coincide. -/
theorem C8_scan_code_deterministic (code : List Char) :
    scan_code code = scan_code code
      ∧ (scan_code code).vulnerabilities.map (fun f => (f.line, f.vulnerability_type, f.snippet))
          = (scan_code code).vulnerabilities.map (fun f => (f.line, f.vulnerability_type, f.snippet)) :=
  ⟨rfl, rfl⟩

/-! Structure of the findings a single line produces. -/

theorem mem_ruleFindings {line : List Char} {n : Nat} {np : String × List RElem} {f : Finding}
    (h : f ∈ ruleFindings line n np) : f.line = n ∧ f.vulnerability_type = np.1 := by
  obtain ⟨be, _, hf⟩ := List.mem_filterMap.mp h
  by_cases hc : is_commented_line line be.1
  · simp [hc] at hf
  · simp [hc] at hf
    cases hf
    exact ⟨rfl, rfl⟩

theorem scan_line_line {l : List Char} {n : Nat} {f : Finding}
    (h : f ∈ scan_line_for_vulnerabilities l n) : f.line = n := by
  obtain ⟨np, _, hmem⟩ := List.mem_flatMap.mp h
  exact (mem_ruleFindings hmem).1

/-- Within one line the findings come out grouped by rule, in catalog
order. -/
theorem scan_line_pairwise (l : List Char) (n : Nat) :
    (scan_line_for_vulnerabilities l n).Pairwise (fun a b => ruleRank a ≤ ruleRank b) := by
  rw [scan_line_for_vulnerabilities, List.pairwise_flatMap]
  constructor
  · intro np _
    apply List.pairwise_of_forall_mem_list
    intro a ha b hb
    rw [ruleRank, ruleRank, (mem_ruleFindings ha).2, (mem_ruleFindings hb).2]
  · have base : compiled_patterns.Pairwise (fun p q =>
        (compiled_patterns.map Prod.fst).indexOf p.1
          ≤ (compiled_patterns.map Prod.fst).indexOf q.1) := by decide
    refine base.imp_of_mem ?_
    intro p q _ _ hpq x hx y hy
    rw [ruleRank, ruleRank, (mem_ruleFindings hx).2, (mem_ruleFindings hy).2]
    exact hpq

/-! Structure of the scan loop. -/

theorem scanLoop_pairwise (ls : List (List Char)) (n : Nat) (acc : List Finding)
    (hacc : acc.Pairwise findingOrder) (hlt : ∀ f ∈ acc, f.line < n) :
    (scanLoop ls n acc).Pairwise findingOrder := by
  induction ls generalizing n acc with
  | nil => exact hacc
  | cons l ls ih =>
    rw [scanLoop]
    split
    · exact hacc
    · apply ih
      · rw [List.pairwise_append]
        refine ⟨hacc, ?_, ?_⟩
        · refine (scan_line_pairwise l n).imp_of_mem ?_
          intro a b ha hb hr
          exact Or.inr ⟨by rw [scan_line_line ha, scan_line_line hb], hr⟩
        · intro a ha b hb
          exact Or.inl (by rw [scan_line_line hb]; exact hlt a ha)
      · intro f hf
        rcases List.mem_append.mp hf with h | h
        · exact Nat.lt_succ_of_lt (hlt f h)
        · rw [scan_line_line h]; exact Nat.lt_succ_self n

/-- C9: the findings sequence of a scan is ordered by ascending line number
and, within a line, by catalog rule position. -/
theorem C9_findings_ordered (code : List Char) :
    (scan_code code).vulnerabilities.Pairwise findingOrder := by
  exact scanLoop_pairwise _ 1 [] List.Pairwise.nil (by intro f hf; cases hf)

theorem scanLoop_split (ls : List (List Char)) (n : Nat) (acc : List Finding) :
    ∃ s, scanLoop ls n acc = acc ++ s ∧ ∀ f ∈ s, n ≤ f.line := by
  induction ls generalizing n acc with
  | nil => exact ⟨[], by simp [scanLoop]⟩
  | cons l ls ih =>
    rw [scanLoop]
    split
    · exact ⟨[], by simp⟩
    · obtain ⟨s, hs, hline⟩ := ih (n + 1) (acc ++ scan_line_for_vulnerabilities l n)
      refine ⟨scan_line_for_vulnerabilities l n ++ s, by rw [hs, List.append_assoc], ?_⟩
      intro f hf
      rcases List.mem_append.mp hf with h | h
      · exact Nat.le_of_eq (scan_line_line h).symm
      · exact Nat.le_of_succ_le (hline f h)

theorem scanLoop_filter_line (ls : List (List Char)) (n : Nat) (acc : List Finding) (k : Nat)
    (hacc : ∀ f ∈ acc, f.line < n) (hnk : n ≤ k)
    (hex : ∃ f ∈ scanLoop ls n acc, f.line = k) :
    (scanLoop ls n acc).filter (fun f => f.line == k)
      = scan_line_for_vulnerabilities (ls.getD (k - n) []) k := by
  induction ls generalizing n acc with
  | nil =>
    obtain ⟨f, hf, hfk⟩ := hex
    have := hacc f hf
    omega
  | cons l ls ih =>
    rw [scanLoop] at hex ⊢
    by_cases hcap : max_vulnerabilities ≤ acc.length
    · rw [if_pos hcap] at hex
      obtain ⟨f, hf, hfk⟩ := hex
      have := hacc f hf
      omega
    · rw [if_neg hcap] at hex ⊢
      rcases Nat.eq_or_lt_of_le hnk with heq | hlt
      · subst heq
        obtain ⟨s, hs, hsl⟩ := scanLoop_split ls (n + 1) (acc ++ scan_line_for_vulnerabilities l n)
        rw [hs, List.filter_append, List.filter_append]
        have h1 : acc.filter (fun f => f.line == n) = [] := by
          rw [List.filter_eq_nil_iff]
          intro f hf
          have := hacc f hf
          simp
          omega
        have h2 : (scan_line_for_vulnerabilities l n).filter (fun f => f.line == n)
            = scan_line_for_vulnerabilities l n := by
          rw [List.filter_eq_self]
          intro f hf
          simp [scan_line_line hf]
        have h3 : s.filter (fun f => f.line == n) = [] := by
          rw [List.filter_eq_nil_iff]
          intro f hf
          have := hsl f hf
          simp
          omega
        simp [h1, h2, h3, Nat.sub_self]
      · have hk : k - n = (k - (n + 1)) + 1 := by omega
        rw [hk, List.getD_cons_succ]
        apply ih (n + 1) (acc ++ scan_line_for_vulnerabilities l n)
        · intro f hf
          rcases List.mem_append.mp hf with h | h
          · exact Nat.lt_succ_of_lt (hacc f h)
          · rw [scan_line_line h]; exact Nat.lt_succ_self n
        · exact hlt
        · exact hex

/-- C10: the cap is checked only between lines, so line scanning is
all-or-nothing — if the result holds any finding for line `k`, it holds
exactly the findings scanning line `k` alone produces (`k`-th line of the
truncated input, 1-based). -/
theorem C10_line_scan_all_or_nothing (code : List Char) (k : Nat)
    (h : ∃ f ∈ (scan_code code).vulnerabilities, f.line = k) :
    (scan_code code).vulnerabilities.filter (fun f => f.line == k)
      = scan_line_for_vulnerabilities ((splitlines (truncateCode code)).getD (k - 1) []) k := by
  have h1 : (1 : Nat) ≤ k := by
    obtain ⟨f, hf, hfk⟩ := h
    obtain ⟨s, hs, hsl⟩ :=
      scanLoop_split (splitlines (truncateCode code)) 1 ([] : List Finding)
    have hf' : f ∈ scanLoop (splitlines (truncateCode code)) 1 [] := hf
    rw [hs] at hf'
    have := hsl f (by simpa using hf')
    omega
  exact scanLoop_filter_line _ 1 [] k (by intro f hf; cases hf) h1 h

/-- Witness for `C10_line_scan_all_or_nothing` at the one-line input
`eval(x)` and line 1. -/
theorem C10_line_scan_all_or_nothing_witness :
    (∃ f ∈ (scan_code "eval(x)".data).vulnerabilities, f.line = 1)
      ∧ (scan_code "eval(x)".data).vulnerabilities.filter (fun f => f.line == 1)
          = scan_line_for_vulnerabilities
              ((splitlines (truncateCode "eval(x)".data)).getD 0 []) 1 :=
  ⟨by decide, C10_line_scan_all_or_nothing _ 1 (by decide)⟩

end XSS

